import Mathlib

/-!
# WebSocket listener hub (`transport/internet/websocket/hub.go`)

A shallow embedding of the listener / upgrade / hand-off path of the WebSocket
transport: `requestHandler.ServeHTTP`, `ListenWS`, `listenTCP`,
`Listener.serve`, `Listener.Addr` and `Listener.Close`.

Conventions of the embedding.

* Go `string` values are Lean `String`s; `!=` on Go strings compares them byte
  for byte, which on `String`s is equality.
* Side effects (writing a response status, calling the upgrader, logging,
  calling the hand-off callback, binding a socket) are recorded, in program
  order, in a list of `Event`s returned next to the result.
* A Go panic is the `Outcome.panicked` result.
* What the file calls from outside (gorilla's `Upgrader.Upgrade`, the parser
  `http_proto.ParseXForwardedFor`, the system socket layer) is a parameter,
  collected in `Env` and `SysEnv`. Code of the repository that is not part of
  this file is modelled from the specification, and says so.
* A Go pointer or interface value that may be nil is an `Option`, `none` being
  nil; a `(value, error)` result of which exactly one is nil is an `Except`.
-/

namespace Websocket

/-! ## Addresses -/

/-- Go `net.TCPAddr`: the `IP` is a byte slice, `Port` an int, `Zone` a string. -/
structure TCPAddr where
  IP : List Nat
  Port : Nat
  Zone : String
deriving DecidableEq, Repr

/-- Go interface value `net.Addr`, by dynamic type: the nil interface, a
`*net.TCPAddr` (pointing to an address), or any other implementation
(`*net.UnixAddr`, a pipe address, ...) described by its `Network()` and
`String()`. -/
inductive Addr where
  | nil
  | tcp (a : TCPAddr)
  | other (network : String) (str : String)
deriving DecidableEq, Repr

/-- Modelled from the spec: `net.AddressFamily` of `v2ray.com/core/common/net`
(not under `src/`), the family of a candidate address: IPv4, IPv6, or another
form such as a domain name. -/
inductive AddressFamily where
  | AddressFamilyIPv4
  | AddressFamilyIPv6
  | AddressFamilyDomain
deriving DecidableEq, Repr

/-- Modelled from the spec: `net.Address` of `v2ray.com/core/common/net` (not
under `src/`), a candidate address: an IPv4 address (4 bytes), an IPv6 address
(16 bytes) or a domain name. -/
inductive Address where
  | ipv4 (ip : List Nat)
  | ipv6 (ip : List Nat)
  | domain (name : String)
deriving DecidableEq, Repr

/-- Modelled from the spec: `Address.Family()`, the family of a candidate. -/
def Address.Family : Address → AddressFamily
  | .ipv4 _ => .AddressFamilyIPv4
  | .ipv6 _ => .AddressFamilyIPv6
  | .domain _ => .AddressFamilyDomain

/-- Modelled from the spec: `AddressFamily.Either(fs...)`, whether the family is
one of the listed families. -/
def AddressFamily.Either (af : AddressFamily) (fs : List AddressFamily) : Bool :=
  fs.any (fun fam => decide (af = fam))

/-- Modelled from the spec: `Address.IP()`, the IP of a candidate. Only the IP
families carry one; on a domain name the call does not return (`none`). -/
def Address.IP : Address → Option (List Nat)
  | .ipv4 ip => some ip
  | .ipv6 ip => some ip
  | .domain _ => none

/-! ## Errors and logging -/

/-- A value passed to `newError`. -/
inductive ErrValue where
  | str (s : String)
  | address (a : Address)
  | port (p : Nat)
deriving DecidableEq, Repr

/-- Go `error` values: an error of an outside library, or an error built by
`newError(values...).Base(err)`, optionally raised to warning level by
`.AtWarning()`. -/
inductive Error where
  | external (msg : String)
  | newError (values : List ErrValue) (base : Error) (atWarning : Bool)
deriving DecidableEq, Repr

/-! ## Requests, connections, the listener -/

/-- Go `http.Header`, as the list of its (name, value) fields. -/
abbrev Header := List (String × String)

/-- The parts of `*http.Request` the handler reads: `URL.Path` and `Header`. -/
structure Request where
  URLPath : String
  Header : Header
deriving DecidableEq, Repr

/-- A `*websocket.Conn` returned by a successful upgrade: the upgraded stream
(identified by `id`) and what its `RemoteAddr()` returns. -/
structure Conn where
  id : Nat
  RemoteAddr : Addr
deriving DecidableEq, Repr

/-- Modelled from the spec: the `connection` built by `newConnection` (file
`connection.go`, not under `src/`): the upgraded stream plus the resolved remote
address. -/
structure connection where
  conn : Conn
  remoteAddr : Addr
deriving DecidableEq, Repr

/-- Modelled from the spec: `newConnection(conn, remoteAddr)` (not under `src/`)
wraps exactly the two values it is given. -/
def newConnection (conn : Conn) (remoteAddr : Addr) : connection :=
  { conn := conn, remoteAddr := remoteAddr }

/-- The transport's `*Config`: the configured path. -/
structure Config where
  Path : String
deriving DecidableEq, Repr

/-- Modelled from the spec: `Config.GetNormalizedPath()` (file `config.go`, not
under `src/`): the configured path, defaulting to "/" when unset. -/
def Config.GetNormalizedPath (c : Config) : String :=
  if c.Path = "" then "/" else c.Path

/-- Go `*tls.Config`, consumed opaquely. -/
structure TLSConfig where
  id : Nat
deriving DecidableEq, Repr

/-- A listener of the system socket layer (`internet.ListenSystem`): its
identity, the local address it is bound to, and whether it has been closed. -/
structure SysListener where
  id : Nat
  laddr : Addr
  closed : Bool
deriving DecidableEq, Repr

/-- Go interface value `net.Listener` as used by this file: the raw system
listener, or the listener made by `tls.NewListener(inner, config)`. -/
inductive NetListener where
  | system (l : SysListener)
  | tls (inner : NetListener) (config : TLSConfig)
deriving DecidableEq, Repr

/-- The hand-off callback `internet.ConnHandler`, a function reference
identified by `id`; calling it is the event `Event.addConn`. -/
structure ConnHandler where
  id : Nat
deriving DecidableEq, Repr

/-- The `Listener` struct: `listener`, `config`, `addConn` (the embedded
`sync.Mutex` is never used by this file). -/
structure Listener where
  listener : NetListener
  config : Config
  addConn : ConnHandler
deriving DecidableEq, Repr

/-- The `requestHandler` struct. -/
structure requestHandler where
  path : String
  ln : Listener
deriving DecidableEq, Repr

/-! ## Effects -/

/-- What a call can do to the outside, in program order. -/
inductive Event where
  /-- The call `writer.WriteHeader(status)`. -/
  | WriteHeader (status : Nat)
  /-- The call `upgrader.Upgrade(writer, request, nil)`. -/
  | Upgrade (request : Request)
  /-- The call `err.WriteToLog(...)`. -/
  | WriteToLog (err : Error)
  /-- The call `http_proto.ParseXForwardedFor(header)`. -/
  | ParseXForwardedFor (header : Header)
  /-- The call `handler(c)` of the hand-off callback `handler` with `c`. -/
  | addConn (handler : ConnHandler) (c : connection)
  /-- The call `internet.ListenSystem(ctx, addr)`. -/
  | ListenSystem (addr : TCPAddr)
deriving DecidableEq, Repr

/-- How a call ends: it returns a value, or it panics. -/
inductive Outcome (α : Type) where
  | returned (a : α)
  | panicked (msg : String)
deriving DecidableEq, Repr

/-- The constant `http.StatusNotFound`. -/
def StatusNotFound : Nat := 404

/-- What is outside the handler: gorilla's `upgrader.Upgrade` (the result of the
handshake on a request) and the repository's `http_proto.ParseXForwardedFor`
(not under `src/`), the candidate list parsed from the request headers. -/
structure Env where
  Upgrade : Request → Except Error Conn
  ParseXForwardedFor : Header → List Address

/-- The result of one `ServeHTTP` call: how it ended, the effects it had, and
the `Listener` behind `h.ln` after the call. -/
structure Served where
  outcome : Outcome Unit
  events : List Event
  ln : Listener
deriving DecidableEq, Repr

/-- Lines 43-46 of `ServeHTTP`: `remoteAddr := conn.RemoteAddr()`, then, when
`len(forwardedAddrs) > 0` and `forwardedAddrs[0].Family()` is IPv4 or IPv6,
`remoteAddr.(*net.TCPAddr).IP = forwardedAddrs[0].IP()`. The type assertion is
unchecked: it panics (`none`) on a nil interface or on any other dynamic type.
The assignment goes through the pointer held by `remoteAddr`; the result is the
address `remoteAddr` denotes afterwards, which is what `newConnection` gets. -/
def recoverRemoteAddr (forwardedAddrs : List Address) (remoteAddr : Addr) : Option Addr :=
  if h : forwardedAddrs.length > 0 then
    if (forwardedAddrs.get ⟨0, h⟩).Family.Either
        [.AddressFamilyIPv4, .AddressFamilyIPv6] = true then
      match remoteAddr with
      | .tcp a =>
        match (forwardedAddrs.get ⟨0, h⟩).IP with
        | some ip => some (.tcp { a with IP := ip })
        | none => none
      | _ => none
    else
      some remoteAddr
  else
    some remoteAddr

/-- The method `requestHandler.ServeHTTP(writer, request)`. -/
def requestHandler.ServeHTTP (env : Env) (h : requestHandler) (request : Request) : Served :=
  if request.URLPath ≠ h.path then
    { outcome := .returned (), events := [.WriteHeader StatusNotFound], ln := h.ln }
  else
    match env.Upgrade request with
    | .error err =>
      { outcome := .returned ()
        events := [.Upgrade request,
          .WriteToLog (.newError [.str "failed to convert to WebSocket connection"] err false)]
        ln := h.ln }
    | .ok conn =>
      let forwardedAddrs := env.ParseXForwardedFor request.Header
      match recoverRemoteAddr forwardedAddrs conn.RemoteAddr with
      | none =>
        { outcome := .panicked "interface conversion: net.Addr is not *net.TCPAddr"
          events := [.Upgrade request, .ParseXForwardedFor request.Header]
          ln := h.ln }
      | some remoteAddr =>
        { outcome := .returned ()
          events := [.Upgrade request, .ParseXForwardedFor request.Header,
            .addConn h.ln.addConn (newConnection conn remoteAddr)]
          ln := h.ln }

/-! ## The forwarded-address header -/

/-- The value of an ASCII decimal digit. -/
def decimalDigit (c : Char) : Option Nat :=
  if 48 ≤ c.toNat ∧ c.toNat ≤ 57 then some (c.toNat - 48) else none

/-- The value of an ASCII hexadecimal digit. -/
def hexDigit (c : Char) : Option Nat :=
  if 48 ≤ c.toNat ∧ c.toNat ≤ 57 then some (c.toNat - 48)
  else if 97 ≤ c.toNat ∧ c.toNat ≤ 102 then some (c.toNat - 87)
  else if 65 ≤ c.toNat ∧ c.toNat ≤ 70 then some (c.toNat - 55)
  else none

/-- The number written by a run of digits, most significant first. -/
def parseNumber (digit : Char → Option Nat) (base : Nat) : List Char → Nat → Option Nat
  | [], acc => some acc
  | c :: cs, acc =>
    match digit c with
    | some d => parseNumber digit base cs (acc * base + d)
    | none => none

/-- The pieces of a text between occurrences of a separator. -/
def splitOnChar (sep : Char) : List Char → List (List Char)
  | [] => [[]]
  | c :: cs =>
    if c = sep then [] :: splitOnChar sep cs
    else
      match splitOnChar sep cs with
      | [] => [[c]]
      | p :: ps => (c :: p) :: ps

/-- One field of a dotted IPv4 address: one to three decimal digits, at most 255. -/
def parseOctet (cs : List Char) : Option Nat :=
  if cs = [] ∨ 3 < cs.length then none
  else
    match parseNumber decimalDigit 10 cs 0 with
    | some n => if n ≤ 255 then some n else none
    | none => none

/-- Apply a fallible function to every element; fail when one fails. -/
def mapOption {α β : Type} (f : α → Option β) : List α → Option (List β)
  | [] => some []
  | a :: as =>
    match f a, mapOption f as with
    | some b, some bs => some (b :: bs)
    | _, _ => none

/-- The four bytes of a dotted-decimal IPv4 address. -/
def parseIPv4 (cs : List Char) : Option (List Nat) :=
  let parts := splitOnChar '.' cs
  if parts.length = 4 then mapOption parseOctet parts else none

/-- One 16-bit group of an IPv6 address: one to four hexadecimal digits. -/
def parseGroup (cs : List Char) : Option Nat :=
  if cs = [] ∨ 4 < cs.length then none else parseNumber hexDigit 16 cs 0

/-- The 16-bit groups of the pieces of a colon-separated run. When allowed, the
last piece may be a dotted IPv4 address, standing for two groups. -/
def parseGroups (allowV4 : Bool) : List (List Char) → Option (List Nat)
  | [] => some []
  | [p] =>
    if allowV4 ∧ '.' ∈ p then
      match parseIPv4 p with
      | some [a, b, c, d] => some [a * 256 + b, c * 256 + d]
      | _ => none
    else
      match parseGroup p with
      | some g => some [g]
      | none => none
  | p :: q :: ps =>
    match parseGroup p, parseGroups allowV4 (q :: ps) with
    | some g, some gs => some (g :: gs)
    | _, _ => none

/-- The groups of a colon-separated run; the empty run has no group. -/
def runGroups (allowV4 : Bool) (cs : List Char) : Option (List Nat) :=
  if cs = [] then some [] else parseGroups allowV4 (splitOnChar ':' cs)

/-- Split a text at its first "::", if it has one. -/
def splitDoubleColon : List Char → List Char × Option (List Char)
  | [] => ([], none)
  | [c] => ([c], none)
  | c :: d :: cs =>
    if c = ':' ∧ d = ':' then ([], some cs)
    else
      match splitDoubleColon (d :: cs) with
      | (l, r) => (c :: l, r)

/-- The bytes of a list of 16-bit groups, high byte first. -/
def groupBytes (gs : List Nat) : List Nat :=
  gs.flatMap (fun g => [g / 256, g % 256])

/-- The sixteen bytes of a textual IPv6 address: eight groups, or fewer groups
around one "::" that stands for the missing zero groups. -/
def parseIPv6 (cs : List Char) : Option (List Nat) :=
  match splitDoubleColon cs with
  | (l, none) =>
    match runGroups true l with
    | some gs => if gs.length = 8 then some (groupBytes gs) else none
    | none => none
  | (l, some r) =>
    match runGroups false l, runGroups true r with
    | some gl, some gr =>
      if gl.length + gr.length ≤ 7 then
        some (groupBytes (gl ++ List.replicate (8 - (gl.length + gr.length)) 0 ++ gr))
      else none
    | _, _ => none

/-- Optional white space around a list entry. -/
def isSpace (c : Char) : Bool := c = ' ' ∨ c = '\t'

/-- Drop the white space at both ends. -/
def trimSpace (cs : List Char) : List Char :=
  ((cs.dropWhile isSpace).reverse.dropWhile isSpace).reverse

/-- Modelled from the spec: the candidate address of one entry of the
forwarded-address header, a step of `http_proto.ParseXForwardedFor` (not under
`src/`). An entry, with the white space around it dropped, that is a
syntactically valid IPv4 or IPv6 address is a candidate of that family. Any
other entry is a candidate of another form, kept as it is written: the form
whose family the recovery step turns down. No entry is fatal. -/
def parseEntry (entry : List Char) : Address :=
  match parseIPv4 (trimSpace entry) with
  | some ip => .ipv4 ip
  | none =>
    match parseIPv6 (trimSpace entry) with
    | some ip => .ipv6 ip
    | none => .domain (String.mk (trimSpace entry))

/-- The library method `Get` of `http.Header`: the first value of a field, the
empty string when the field is absent. -/
def Header.Get (h : Header) (key : String) : String :=
  match h.find? (fun kv => kv.1 = key) with
  | some kv => kv.2
  | none => ""

/-- The entries of the forwarded-address header: the comma-separated pieces of
its value, none when the header is absent or empty. -/
def forwardedEntries (h : Header) : List (List Char) :=
  if Header.Get h "X-Forwarded-For" = "" then []
  else splitOnChar ',' (Header.Get h "X-Forwarded-For").toList

/-- Modelled from the spec: `http_proto.ParseXForwardedFor` (package
`v2ray.com/core/common/protocol/http`, not under `src/`). It parses the
forwarded-address header into the ordered sequence of candidate addresses, one
for each entry, the earliest first; the sequence is empty when the header is
absent. An entry that is not a valid IP address is not fatal: it is a candidate
of another form, which the recovery step passes over (the first candidate can be
of a family that is neither IPv4 nor IPv6). -/
def ParseXForwardedFor (h : Header) : List Address :=
  (forwardedEntries h).map parseEntry

/-! ## Creating the listener -/

/-- Modelled from the spec: the dynamic type of the `ProtocolSettings` field, an
empty interface: this transport's `*Config`, or anything else. -/
inductive ProtocolSettings where
  | wsConfig (c : Config)
  | other (name : String)
deriving DecidableEq, Repr

/-- Modelled from the spec: the stream settings of `transport/internet` (not
under `src/`), of which `ListenWS` reads `ProtocolSettings`. -/
structure StreamSettings where
  ProtocolSettings : ProtocolSettings
deriving DecidableEq, Repr

/-- Modelled from the spec: the TLS config object `*v2tls.Config` of
`transport/internet/tls` (not under `src/`), consumed opaquely. -/
structure V2TLSConfig where
  id : Nat
deriving DecidableEq, Repr

/-- Modelled from the spec: `Config.GetTLSConfig()` of `transport/internet/tls`
(not under `src/`) yields the TLS configuration of a TLS config object. -/
def V2TLSConfig.GetTLSConfig (c : V2TLSConfig) : Option TLSConfig :=
  some { id := c.id }

/-- Modelled from the spec: what `ListenWS` looks up in its `context.Context`
through opaque accessors: the stream settings, the TLS config object (if any),
and the session id used when logging. -/
structure Context where
  streamSettings : Option StreamSettings
  tlsConfig : Option V2TLSConfig
  sessionID : Nat
deriving DecidableEq, Repr

/-- Modelled from the spec: `internet.StreamSettingsFromContext(ctx)`. -/
def StreamSettingsFromContext (ctx : Context) : Option StreamSettings :=
  ctx.streamSettings

/-- Modelled from the spec: `v2tls.ConfigFromContext(ctx)`. -/
def ConfigFromContext (ctx : Context) : Option V2TLSConfig :=
  ctx.tlsConfig

/-- The system socket layer: `internet.ListenSystem` binds a listening socket
on an address, or fails. -/
structure SysEnv where
  ListenSystem : TCPAddr → Except Error SysListener

/-- A goroutine started by a `go` statement of this file: the closure of
`ListenWS` that runs `l.serve()` and logs its error. -/
inductive Task where
  | serve (l : Listener) (ctx : Context)
deriving DecidableEq, Repr

/-- The result of `listenTCP` or `ListenWS`: how the call ended and with which
return value, the effects it had, and the goroutines it started. -/
structure Listened (α : Type) where
  outcome : Outcome α
  events : List Event
  spawned : List Task

/-- The function `listenTCP(ctx, address, port, tlsConfig)`. Each of its return
statements gives either a listener with a nil error or a nil listener with an
error, so its return value is an `Except`. -/
def listenTCP (sys : SysEnv) (address : Address) (port : Nat)
    (tlsConfig : Option TLSConfig) : Listened (Except Error NetListener) :=
  match address.IP with
  | none => { outcome := .panicked "Calling IP() on a DomainAddress.", events := [], spawned := [] }
  | some ip =>
    let addr : TCPAddr := { IP := ip, Port := port, Zone := "" }
    match sys.ListenSystem addr with
    | .error err =>
      { outcome := .returned (.error (.newError
          [.str "failed to listen TCP on", .address address, .str ":", .port port] err false))
        events := [.ListenSystem addr]
        spawned := [] }
    | .ok listener =>
      match tlsConfig with
      | some config =>
        { outcome := .returned (.ok (.tls (.system listener) config))
          events := [.ListenSystem addr]
          spawned := [] }
      | none =>
        { outcome := .returned (.ok (.system listener))
          events := [.ListenSystem addr]
          spawned := [] }

/-- Lines 62-65 of `ListenWS`: the TLS configuration handed to `listenTCP`. -/
def ListenWS.tlsConfig (ctx : Context) : Option TLSConfig :=
  match ConfigFromContext ctx with
  | some config => config.GetTLSConfig
  | none => none

/-- The function `ListenWS(ctx, address, port, addConn)`; its return value is
the Go pair `(listener, err)`, `none` being nil. Reading the protocol settings
panics when the context has no stream settings (nil dereference) or when they
are not this transport's `*Config` (unchecked type assertion). -/
def ListenWS (sys : SysEnv) (ctx : Context) (address : Address) (port : Nat)
    (addConn : ConnHandler) : Listened (Option Listener × Option Error) :=
  match StreamSettingsFromContext ctx with
  | none => { outcome := .panicked "nil pointer dereference", events := [], spawned := [] }
  | some networkSettings =>
    match networkSettings.ProtocolSettings with
    | .other _ =>
      { outcome := .panicked "interface conversion: interface is not *websocket.Config"
        events := [], spawned := [] }
    | .wsConfig wsSettings =>
      let r := listenTCP sys address port (ListenWS.tlsConfig ctx)
      match r.outcome with
      | .panicked msg => { outcome := .panicked msg, events := r.events, spawned := r.spawned }
      | .returned (.error err) =>
        { outcome := .returned (none, some err), events := r.events, spawned := r.spawned }
      | .returned (.ok listener) =>
        let l : Listener := { config := wsSettings, addConn := addConn, listener := listener }
        { outcome := .returned (some l, none)
          events := r.events
          spawned := r.spawned ++ [.serve l ctx] }

/-! ## Serving, `Addr`, `Close` -/

/-- The result of a run of `http.Serve`: the error it returns, the effects of
the requests it handled, and the `Listener` after the run. -/
structure ServeRun where
  err : Error
  events : List Event
  ln : Listener
deriving DecidableEq, Repr

/-- The library function `http.Serve(listener, handler)`, for a given sequence
of incoming requests: every request is given to `handler.ServeHTTP` (a panic of
the handler ends that request only), until accepting fails with `final`, which
is returned. The requests are taken one after the other. -/
def httpServe (env : Env) (path : String) (final : Error) :
    List Request → Listener → List Event → ServeRun
  | [], ln, events => { err := final, events := events, ln := ln }
  | request :: rest, ln, events =>
    let r := requestHandler.ServeHTTP env { path := path, ln := ln } request
    httpServe env path final rest r.ln (events ++ r.events)

/-- The method `Listener.serve()`, for a given sequence of incoming requests. -/
def Listener.serve (env : Env) (ln : Listener) (requests : List Request)
    (final : Error) : ServeRun :=
  httpServe env ln.config.GetNormalizedPath final requests ln []

/-- The body of the goroutine started by `ListenWS`: run `l.serve()`; when it
returns an error, write it to the log at warning level. It returns nothing. -/
def Task.run (env : Env) (requests : List Request) (final : Error) : Task → List Event
  | .serve l _ =>
    let r := l.serve env requests final
    r.events ++ [.WriteToLog (.newError [.str "failed to serve http for WebSocket"] r.err true)]

/-- The library method `Addr()` of a `net.Listener`: the local address of the
system listener; a TLS listener answers with the address of its inner listener. -/
def NetListener.Addr : NetListener → Addr
  | .system l => l.laddr
  | .tls inner _ => inner.Addr

/-- The library method `Close()` of a `net.Listener`: the system listener is
marked closed, and closing it again is an error; a TLS listener closes its inner
listener. -/
def NetListener.Close : NetListener → NetListener × Option Error
  | .system l =>
    if l.closed then (.system l, some (.external "use of closed network connection"))
    else (.system { l with closed := true }, none)
  | .tls inner config => ((.tls (inner.Close).1 config), (inner.Close).2)

/-- The system listener under a `net.Listener`. -/
def NetListener.sysId : NetListener → Nat
  | .system l => l.id
  | .tls inner _ => inner.sysId

/-- Whether a `net.Listener` has been closed. -/
def NetListener.closed : NetListener → Bool
  | .system l => l.closed
  | .tls inner _ => inner.closed

/-- The method `Listener.Addr()`. -/
def Listener.Addr (ln : Listener) : Addr :=
  ln.listener.Addr

/-- The method `Listener.Close()`: the error of closing the underlying listener,
and the `Listener` after the call. -/
def Listener.Close (ln : Listener) : Listener × Option Error :=
  ({ ln with listener := (ln.listener.Close).1 }, (ln.listener.Close).2)

/-- An operation on a `Listener` during its lifetime. -/
inductive Op where
  | Close
  | ServeHTTP (env : Env) (request : Request)
  | serve (env : Env) (requests : List Request) (final : Error)

/-- The `Listener` after one operation. -/
def Op.apply (ln : Listener) : Op → Listener
  | .Close => (ln.Close).1
  | .ServeHTTP env request =>
    (requestHandler.ServeHTTP env { path := ln.config.GetNormalizedPath, ln := ln } request).ln
  | .serve env requests final => (ln.serve env requests final).ln

/-- The `Listener` after a sequence of operations. -/
def applyOps (ln : Listener) (ops : List Op) : Listener :=
  ops.foldl Op.apply ln

/-! ## Observations on a handled request -/

/-- Whether an effect is a call of the upgrade procedure. -/
def Event.isUpgrade : Event → Bool
  | .Upgrade _ => true
  | _ => false

/-- Whether an effect is a call of the hand-off callback. -/
def Event.isAddConn : Event → Bool
  | .addConn _ _ => true
  | _ => false

/-- Whether an effect is a call of the forwarded-header parser. -/
def Event.isParse : Event → Bool
  | .ParseXForwardedFor _ => true
  | _ => false

/-- The connections handed to the hand-off callback, in order. -/
def delivered : List Event → List connection
  | [] => []
  | .addConn _ c :: es => c :: delivered es
  | _ :: es => delivered es

/-- Reference definition of address recovery, following the specification: when
the candidate list is not empty and its first candidate is of family IPv4 or
IPv6, the IP of the socket-level address is replaced by the IP of that
candidate, and nothing else changes; otherwise the address is unchanged. -/
def AddressRecovery : List Address → TCPAddr → TCPAddr
  | .ipv4 ip :: _, a => { IP := ip, Port := a.Port, Zone := a.Zone }
  | .ipv6 ip :: _, a => { IP := ip, Port := a.Port, Zone := a.Zone }
  | _, a => a

/-- The IP written by an entry that is a syntactically valid IPv4 or IPv6
address. -/
def entryIP (entry : List Char) : Option (List Nat) :=
  match parseIPv4 (trimSpace entry) with
  | some ip => some ip
  | none => parseIPv6 (trimSpace entry)

/-- The IP of the first entry of the forwarded-address header that is a
syntactically valid IPv4 or IPv6 address, if the header has one. -/
def firstValidIP (h : Header) : Option (List Nat) :=
  (forwardedEntries h).findSome? entryIP

/-! ## The upgrade gate -/

/-- C1: `ServeHTTP` calls the upgrade procedure if and only if the request path
equals the configured path as strings; with the path "/ws" configured, the
paths "/ws/", "/ws2" and "/" never reach the upgrade. -/
theorem ServeHTTP_upgrade_iff_path_eq :
    (∀ (env : Env) (h : requestHandler) (request : Request),
      (∃ e ∈ (h.ServeHTTP env request).events, e.isUpgrade = true) ↔
        request.URLPath = h.path) ∧
    (∀ (env : Env) (ln : Listener) (header : Header),
      ∀ Q ∈ ["/ws/", "/ws2", "/"],
        ∀ e ∈ (requestHandler.ServeHTTP env { path := "/ws", ln := ln }
          { URLPath := Q, Header := header }).events, e.isUpgrade = false) := by
  have key : ∀ (env : Env) (h : requestHandler) (request : Request),
      (∃ e ∈ (h.ServeHTTP env request).events, e.isUpgrade = true) ↔
        request.URLPath = h.path := by
    intro env h request
    unfold requestHandler.ServeHTTP
    by_cases hp : request.URLPath = h.path
    · simp only [hp, ne_eq, not_true_eq_false, if_false, iff_true]
      cases env.Upgrade request with
      | error err => exact ⟨_, List.mem_cons_self _ _, rfl⟩
      | ok conn =>
        dsimp only
        cases recoverRemoteAddr (env.ParseXForwardedFor request.Header) conn.RemoteAddr <;>
          exact ⟨_, List.mem_cons_self _ _, rfl⟩
    · simp [hp, Event.isUpgrade]
  refine ⟨key, ?_⟩
  intro env ln header Q hQ e he
  have hne : ¬ (Q = "/ws") := by
    simp only [List.mem_cons, List.mem_singleton, List.not_mem_nil, or_false] at hQ
    rcases hQ with rfl | rfl | rfl <;> decide
  cases hu : e.isUpgrade with
  | false => rfl
  | true => exact absurd ((key env _ _).1 ⟨e, he, hu⟩) hne

/-- C4: a request whose path differs from the configured path gets status 404
and nothing else: the call returns, its only effect is writing the status (no
upgrade, no hand-off), and the `Listener` is as before. -/
theorem ServeHTTP_path_mismatch (env : Env) (h : requestHandler) (request : Request)
    (hne : request.URLPath ≠ h.path) :
    h.ServeHTTP env request =
        { outcome := .returned (), events := [.WriteHeader 404], ln := h.ln } ∧
      (∀ e ∈ (h.ServeHTTP env request).events, e.isUpgrade = false ∧ e.isAddConn = false) ∧
      delivered (h.ServeHTTP env request).events = [] ∧
      (h.ServeHTTP env request).ln.listener.closed = h.ln.listener.closed := by
  have h1 : h.ServeHTTP env request =
      { outcome := .returned (), events := [.WriteHeader 404], ln := h.ln } := by
    unfold requestHandler.ServeHTTP
    rw [if_pos hne]
    rfl
  rw [h1]
  refine ⟨rfl, ?_, rfl, rfl⟩
  intro e he
  simp only [List.mem_singleton] at he
  subst he
  exact ⟨rfl, rfl⟩

/-- Witness of C4: path "/ws" configured, request path "/other". -/
theorem ServeHTTP_path_mismatch_witness :
    requestHandler.ServeHTTP
        { Upgrade := fun _ => .ok { id := 1, RemoteAddr := .nil }
          ParseXForwardedFor := fun _ => [] }
        { path := "/ws"
          ln := { listener := .system { id := 0, laddr := .nil, closed := false }
                  config := { Path := "/ws" }, addConn := { id := 7 } } }
        { URLPath := "/other", Header := [] } =
      { outcome := .returned (), events := [.WriteHeader 404]
        ln := { listener := .system { id := 0, laddr := .nil, closed := false }
                config := { Path := "/ws" }, addConn := { id := 7 } } } :=
  (ServeHTTP_path_mismatch _ _ _ (by decide)).1

/-- The three ways a request with the configured path is handled: the upgrade
fails; it succeeds and address recovery panics; it succeeds and the connection
is handed off. -/
theorem ServeHTTP_path_eq (env : Env) (h : requestHandler) (request : Request)
    (hp : request.URLPath = h.path) :
    h.ServeHTTP env request =
      match env.Upgrade request with
      | .error err =>
        { outcome := .returned ()
          events := [.Upgrade request,
            .WriteToLog (.newError [.str "failed to convert to WebSocket connection"] err false)]
          ln := h.ln }
      | .ok conn =>
        match recoverRemoteAddr (env.ParseXForwardedFor request.Header) conn.RemoteAddr with
        | none =>
          { outcome := .panicked "interface conversion: net.Addr is not *net.TCPAddr"
            events := [.Upgrade request, .ParseXForwardedFor request.Header]
            ln := h.ln }
        | some remoteAddr =>
          { outcome := .returned ()
            events := [.Upgrade request, .ParseXForwardedFor request.Header,
              .addConn h.ln.addConn (newConnection conn remoteAddr)]
            ln := h.ln } := by
  unfold requestHandler.ServeHTTP
  rw [if_neg (by simpa using hp)]

/-- The source's recovery on a TCP address never panics, and it is the
reference definition. -/
theorem recoverRemoteAddr_tcp (L : List Address) (a : TCPAddr) :
    recoverRemoteAddr L (.tcp a) = some (.tcp (AddressRecovery L a)) := by
  cases L with
  | nil => simp [recoverRemoteAddr, AddressRecovery]
  | cons c rest =>
    cases c <;>
      simp [recoverRemoteAddr, AddressRecovery, Address.Family, AddressFamily.Either,
        Address.IP]

/-- The source's recovery panics exactly when the first candidate is of an IP
family and the address is not a TCP address. -/
theorem recoverRemoteAddr_eq_none_iff (L : List Address) (r : Addr) :
    recoverRemoteAddr L r = none ↔
      (∃ c rest, L = c :: rest ∧
          c.Family.Either [.AddressFamilyIPv4, .AddressFamilyIPv6] = true) ∧
        ∀ a, r ≠ .tcp a := by
  cases L with
  | nil => simp [recoverRemoteAddr]
  | cons c rest =>
    cases c <;> cases r <;>
      simp [recoverRemoteAddr, Address.Family, AddressFamily.Either, Address.IP]

/-- Every hand-off of a `ServeHTTP` call is of the connection a successful
upgrade of that request returned, to the callback of the `Listener`. -/
theorem ServeHTTP_addConn_mem (env : Env) (h : requestHandler) (request : Request)
    (handler : ConnHandler) (c : connection)
    (hc : Event.addConn handler c ∈ (h.ServeHTTP env request).events) :
    request.URLPath = h.path ∧ env.Upgrade request = .ok c.conn ∧
      handler = h.ln.addConn := by
  by_cases hp : request.URLPath = h.path
  · rw [ServeHTTP_path_eq env h request hp] at hc
    refine ⟨hp, ?_⟩
    cases hu : env.Upgrade request with
    | error err => rw [hu] at hc; simp at hc
    | ok conn =>
      rw [hu] at hc
      dsimp only at hc
      cases hr : recoverRemoteAddr (env.ParseXForwardedFor request.Header) conn.RemoteAddr with
      | none => rw [hr] at hc; simp at hc
      | some remoteAddr =>
        rw [hr] at hc
        simp only [List.mem_cons, List.mem_singleton, List.not_mem_nil, or_false,
          Event.addConn.injEq, false_or, reduceCtorEq] at hc
        obtain ⟨h1, h2⟩ := hc
        subst h1 h2
        exact ⟨rfl, rfl⟩
  · have hm : h.ServeHTTP env request =
        { outcome := .returned (), events := [.WriteHeader StatusNotFound], ln := h.ln } := by
      unfold requestHandler.ServeHTTP
      rw [if_pos hp]
    rw [hm] at hc
    simp at hc

/-- C5: when the path matches and the upgrade fails, `ServeHTTP` returns
normally, its effects are the upgrade call and one log entry (the forwarded
header is not parsed, the callback is not called), and the `Listener` is as
before; and in every call, whatever is handed to the callback is the connection
that a successful upgrade of this request returned. -/
theorem ServeHTTP_upgrade_failure (env : Env) (h : requestHandler) (request : Request) :
    (∀ err, request.URLPath = h.path → env.Upgrade request = .error err →
      h.ServeHTTP env request =
          { outcome := .returned ()
            events := [.Upgrade request,
              .WriteToLog
                (.newError [.str "failed to convert to WebSocket connection"] err false)]
            ln := h.ln } ∧
        (∀ e ∈ (h.ServeHTTP env request).events, e.isParse = false ∧ e.isAddConn = false) ∧
        delivered (h.ServeHTTP env request).events = []) ∧
    (∀ handler c, Event.addConn handler c ∈ (h.ServeHTTP env request).events →
      env.Upgrade request = .ok c.conn) := by
  refine ⟨?_, ?_⟩
  · intro err hp hu
    have h1 := ServeHTTP_path_eq env h request hp
    rw [hu] at h1
    dsimp only at h1
    rw [h1]
    refine ⟨rfl, ?_, rfl⟩
    intro e he
    simp only [List.mem_cons, List.mem_singleton, List.not_mem_nil, or_false] at he
    rcases he with rfl | rfl <;> exact ⟨rfl, rfl⟩
  · intro handler c hc
    exact (ServeHTTP_addConn_mem env h request handler c hc).2.1

/-- Witness of C5: path "/ws" matches and the handshake fails. -/
theorem ServeHTTP_upgrade_failure_witness :
    requestHandler.ServeHTTP
        { Upgrade := fun _ => .error (.external "bad handshake")
          ParseXForwardedFor := fun _ => [.ipv4 [198, 51, 100, 9]] }
        { path := "/ws"
          ln := { listener := .system { id := 0, laddr := .nil, closed := false }
                  config := { Path := "/ws" }, addConn := { id := 7 } } }
        { URLPath := "/ws", Header := [] } =
      { outcome := .returned ()
        events := [.Upgrade { URLPath := "/ws", Header := [] },
          .WriteToLog (.newError [.str "failed to convert to WebSocket connection"]
            (.external "bad handshake") false)]
        ln := { listener := .system { id := 0, laddr := .nil, closed := false }
                config := { Path := "/ws" }, addConn := { id := 7 } } } :=
  ((ServeHTTP_upgrade_failure _ _ _).1 (.external "bad handshake") (by decide) rfl).1

/-- C6: when the path matches, the upgrade succeeds and the socket-level peer
address is a TCP address, `ServeHTTP` returns after calling the callback of the
`Listener` exactly once, with the connection that `newConnection` builds from
the upgraded stream and the address computed by address recovery. -/
theorem ServeHTTP_handoff (env : Env) (h : requestHandler) (request : Request)
    (conn : Conn) (a : TCPAddr)
    (hp : request.URLPath = h.path) (hu : env.Upgrade request = .ok conn)
    (ha : conn.RemoteAddr = .tcp a) :
    ∃ remoteAddr,
      recoverRemoteAddr (env.ParseXForwardedFor request.Header) conn.RemoteAddr =
          some remoteAddr ∧
        h.ServeHTTP env request =
          { outcome := .returned ()
            events := [.Upgrade request, .ParseXForwardedFor request.Header,
              .addConn h.ln.addConn (newConnection conn remoteAddr)]
            ln := h.ln } ∧
        delivered (h.ServeHTTP env request).events = [newConnection conn remoteAddr] ∧
        (h.ServeHTTP env request).events.countP Event.isAddConn = 1 := by
  have hr := recoverRemoteAddr_tcp (env.ParseXForwardedFor request.Header) a
  rw [← ha] at hr
  have h1 := ServeHTTP_path_eq env h request hp
  rw [hu] at h1
  dsimp only at h1
  rw [hr] at h1
  dsimp only at h1
  refine ⟨_, hr, h1, ?_, ?_⟩
  · rw [h1]; rfl
  · rw [h1]; rfl

/-- Witness of C6: no forwarded header, peer 203.0.113.5:54321; the connection
is delivered with remote address 203.0.113.5:54321. -/
theorem ServeHTTP_handoff_witness :
    delivered (requestHandler.ServeHTTP
        { Upgrade := fun _ => .ok { id := 1
                                    RemoteAddr := .tcp { IP := [203, 0, 113, 5]
                                                         Port := 54321, Zone := "" } }
          ParseXForwardedFor := fun _ => [] }
        { path := "/ws"
          ln := { listener := .system { id := 0, laddr := .nil, closed := false }
                  config := { Path := "/ws" }, addConn := { id := 7 } } }
        { URLPath := "/ws", Header := [] }).events =
      [newConnection
        { id := 1, RemoteAddr := .tcp { IP := [203, 0, 113, 5], Port := 54321, Zone := "" } }
        (.tcp { IP := [203, 0, 113, 5], Port := 54321, Zone := "" })] := by
  obtain ⟨r, h1, _, h3, _⟩ := ServeHTTP_handoff
    { Upgrade := fun _ => .ok { id := 1
                                RemoteAddr := .tcp { IP := [203, 0, 113, 5]
                                                     Port := 54321, Zone := "" } }
      ParseXForwardedFor := fun _ => [] }
    { path := "/ws"
      ln := { listener := .system { id := 0, laddr := .nil, closed := false }
              config := { Path := "/ws" }, addConn := { id := 7 } } }
    { URLPath := "/ws", Header := [] }
    { id := 1, RemoteAddr := .tcp { IP := [203, 0, 113, 5], Port := 54321, Zone := "" } }
    { IP := [203, 0, 113, 5], Port := 54321, Zone := "" }
    (by decide) rfl rfl
  have hr : r = .tcp { IP := [203, 0, 113, 5], Port := 54321, Zone := "" } :=
    (Option.some.inj h1).symm
  rw [h3, hr]

/-! ## Address recovery -/

/-- C3: on every candidate list and every TCP socket-level address, the recovery
step of `ServeHTTP` returns what the reference definition gives: the IP of the
first candidate when that candidate is IPv4 or IPv6, with port and zone of the
socket-level address kept; the address unchanged when the list is empty or
starts with a candidate of another family, whatever follows it. -/
theorem recoverRemoteAddr_refines_AddressRecovery (L : List Address) (a : TCPAddr) :
    recoverRemoteAddr L (.tcp a) = some (.tcp (AddressRecovery L a)) ∧
      (AddressRecovery L a).Port = a.Port ∧
      (AddressRecovery L a).Zone = a.Zone ∧
      (∀ c rest ip, L = c :: rest →
        c.Family.Either [.AddressFamilyIPv4, .AddressFamilyIPv6] = true →
        c.IP = some ip →
        recoverRemoteAddr L (.tcp a) = some (.tcp { IP := ip, Port := a.Port, Zone := a.Zone })) ∧
      ((L = [] ∨ ∃ c rest, L = c :: rest ∧
          c.Family.Either [.AddressFamilyIPv4, .AddressFamilyIPv6] = false) →
        recoverRemoteAddr L (.tcp a) = some (.tcp a)) := by
  refine ⟨recoverRemoteAddr_tcp L a, ?_, ?_, ?_, ?_⟩
  · rcases L with _ | ⟨c, rest⟩
    · rfl
    · cases c <;> rfl
  · rcases L with _ | ⟨c, rest⟩
    · rfl
    · cases c <;> rfl
  · intro c rest ip hL hf hip
    subst hL
    cases c <;>
      simp_all [recoverRemoteAddr, Address.Family, AddressFamily.Either, Address.IP]
  · rintro (hL | ⟨c, rest, hL, hf⟩)
    · subst hL
      simp [recoverRemoteAddr]
    · subst hL
      cases c <;>
        simp_all [recoverRemoteAddr, Address.Family, AddressFamily.Either, Address.IP]

/-- Witness of C3: candidates 198.51.100.9 then 10.0.0.1, peer 10.0.0.1:9000
give 198.51.100.9:9000; a domain name first leaves the peer address as it is. -/
theorem recoverRemoteAddr_refines_AddressRecovery_witness :
    recoverRemoteAddr [.ipv4 [198, 51, 100, 9], .ipv4 [10, 0, 0, 1]]
        (.tcp { IP := [10, 0, 0, 1], Port := 9000, Zone := "" }) =
      some (.tcp { IP := [198, 51, 100, 9], Port := 9000, Zone := "" }) ∧
    recoverRemoteAddr [.domain "proxy.example.com", .ipv4 [198, 51, 100, 9]]
        (.tcp { IP := [10, 0, 0, 1], Port := 9000, Zone := "" }) =
      some (.tcp { IP := [10, 0, 0, 1], Port := 9000, Zone := "" }) :=
  ⟨(recoverRemoteAddr_refines_AddressRecovery _ _).2.2.2.1 _ _ _ rfl (by decide) rfl,
   (recoverRemoteAddr_refines_AddressRecovery _ _).2.2.2.2 (Or.inr ⟨_, _, rfl, by decide⟩)⟩

/-- C10: `ServeHTTP` panics exactly when the path matches, the upgrade succeeds,
the candidate list is not empty, its first candidate is IPv4 or IPv6, and the
remote address of the upgraded connection is not a TCP address; a call that
panics hands nothing to the callback. In every other case (a TCP remote address,
an empty list, a first candidate that is not an IP) the call returns. -/
theorem ServeHTTP_panics_iff (env : Env) (h : requestHandler) (request : Request) :
    ((∃ msg, (h.ServeHTTP env request).outcome = .panicked msg) ↔
      request.URLPath = h.path ∧
        ∃ conn, env.Upgrade request = .ok conn ∧
          (∃ c rest, env.ParseXForwardedFor request.Header = c :: rest ∧
            c.Family.Either [.AddressFamilyIPv4, .AddressFamilyIPv6] = true) ∧
          ∀ a, conn.RemoteAddr ≠ .tcp a) ∧
    ((∃ msg, (h.ServeHTTP env request).outcome = .panicked msg) →
      delivered (h.ServeHTTP env request).events = []) ∧
    ((h.ServeHTTP env request).outcome = .returned () ∨
      ∃ msg, (h.ServeHTTP env request).outcome = .panicked msg) := by
  by_cases hp : request.URLPath = h.path
  · rw [ServeHTTP_path_eq env h request hp]
    cases hu : env.Upgrade request with
    | error err => simp
    | ok conn =>
      dsimp only
      cases hr : recoverRemoteAddr (env.ParseXForwardedFor request.Header) conn.RemoteAddr with
      | none =>
        have hn := (recoverRemoteAddr_eq_none_iff _ _).1 hr
        refine ⟨⟨fun _ => ⟨hp, conn, rfl, hn⟩, fun _ => ⟨_, rfl⟩⟩, fun _ => rfl, Or.inr ⟨_, rfl⟩⟩
      | some remoteAddr =>
        refine ⟨⟨fun ⟨_, hm⟩ => by simp at hm, ?_⟩, fun ⟨_, hm⟩ => by simp at hm, Or.inl rfl⟩
        rintro ⟨_, conn2, hc, hn⟩
        have hcc : conn2 = conn := by simpa using hc.symm
        subst hcc
        have := (recoverRemoteAddr_eq_none_iff _ _).2 hn
        rw [hr] at this
        exact absurd this (by simp)
  · have hm : h.ServeHTTP env request =
        { outcome := .returned (), events := [.WriteHeader StatusNotFound], ln := h.ln } := by
      unfold requestHandler.ServeHTTP
      rw [if_pos hp]
    rw [hm]
    simp [hp]

/-- Witness of C10: the first candidate is an IPv4 address and the upgraded
connection reports a remote address that is not a TCP address: the call panics. -/
theorem ServeHTTP_panics_iff_witness :
    ∃ msg, (requestHandler.ServeHTTP
        { Upgrade := fun _ => .ok { id := 1, RemoteAddr := .other "unix" "/run/ws.sock" }
          ParseXForwardedFor := fun _ => [.ipv4 [198, 51, 100, 9]] }
        { path := "/ws"
          ln := { listener := .system { id := 0, laddr := .nil, closed := false }
                  config := { Path := "/ws" }, addConn := { id := 7 } } }
        { URLPath := "/ws", Header := [] }).outcome = .panicked msg :=
  (ServeHTTP_panics_iff _ _ _).1.2
    ⟨by decide, _, rfl, ⟨_, _, rfl, by decide⟩, fun _ => by simp⟩

/-- C2, as stated, fails: the header "unknown, 198.51.100.9" has a syntactically
valid IPv4 entry, 198.51.100.9, yet with peer 10.0.0.1:9000 the connection is
delivered with the raw peer address 10.0.0.1:9000, not with 198.51.100.9:9000:
the first candidate is not an IP address, and the recovery step looks at the
first candidate only. -/
theorem ServeHTTP_first_valid_ip_not_honoured :
    firstValidIP [("X-Forwarded-For", "unknown, 198.51.100.9")] =
        some [198, 51, 100, 9] ∧
      ParseXForwardedFor [("X-Forwarded-For", "unknown, 198.51.100.9")] =
        [.domain "unknown", .ipv4 [198, 51, 100, 9]] ∧
      delivered (requestHandler.ServeHTTP
          { Upgrade := fun _ => .ok { id := 1
                                      RemoteAddr := .tcp { IP := [10, 0, 0, 1]
                                                           Port := 9000, Zone := "" } }
            ParseXForwardedFor := ParseXForwardedFor }
          { path := "/ws"
            ln := { listener := .system { id := 0, laddr := .nil, closed := false }
                    config := { Path := "/ws" }, addConn := { id := 7 } } }
          { URLPath := "/ws"
            Header := [("X-Forwarded-For", "unknown, 198.51.100.9")] }).events =
        [newConnection
          { id := 1, RemoteAddr := .tcp { IP := [10, 0, 0, 1], Port := 9000, Zone := "" } }
          (.tcp { IP := [10, 0, 0, 1], Port := 9000, Zone := "" })] ∧
      ¬ delivered (requestHandler.ServeHTTP
          { Upgrade := fun _ => .ok { id := 1
                                      RemoteAddr := .tcp { IP := [10, 0, 0, 1]
                                                           Port := 9000, Zone := "" } }
            ParseXForwardedFor := ParseXForwardedFor }
          { path := "/ws"
            ln := { listener := .system { id := 0, laddr := .nil, closed := false }
                    config := { Path := "/ws" }, addConn := { id := 7 } } }
          { URLPath := "/ws"
            Header := [("X-Forwarded-For", "unknown, 198.51.100.9")] }).events =
        [newConnection
          { id := 1, RemoteAddr := .tcp { IP := [10, 0, 0, 1], Port := 9000, Zone := "" } }
          (.tcp { IP := [198, 51, 100, 9], Port := 9000, Zone := "" })] := by
  refine ⟨by decide, by decide, by decide, by decide⟩

/-- A valid IPv4 or IPv6 entry is a candidate of that family with the IP it
writes. -/
theorem parseEntry_of_entryIP (entry : List Char) (ip : List Nat)
    (he : entryIP entry = some ip) :
    parseEntry entry = .ipv4 ip ∨ parseEntry entry = .ipv6 ip := by
  unfold entryIP at he
  unfold parseEntry
  cases h4 : parseIPv4 (trimSpace entry) with
  | some ip4 =>
    rw [h4] at he
    exact Or.inl (by rw [← Option.some.inj he])
  | none =>
    rw [h4] at he
    dsimp only at he
    rw [he]
    exact Or.inr rfl

/-- An entry that is not a valid IPv4 or IPv6 address is a candidate of another
form. -/
theorem parseEntry_of_entryIP_none (entry : List Char) (he : entryIP entry = none) :
    ∃ name, parseEntry entry = .domain name := by
  unfold entryIP at he
  unfold parseEntry
  cases h4 : parseIPv4 (trimSpace entry) with
  | some ip4 => rw [h4] at he; simp at he
  | none =>
    rw [h4] at he
    dsimp only at he
    rw [he]
    exact ⟨_, rfl⟩

/-- With a TCP peer, what is delivered is the connection with the address the
reference recovery gives on the parsed candidates, whatever the parser. -/
theorem ServeHTTP_delivered_of_tcp (env : Env) (h : requestHandler) (request : Request)
    (conn : Conn) (a : TCPAddr)
    (hp : request.URLPath = h.path) (hu : env.Upgrade request = .ok conn)
    (ha : conn.RemoteAddr = .tcp a) :
    delivered (h.ServeHTTP env request).events =
      [newConnection conn (.tcp (AddressRecovery (env.ParseXForwardedFor request.Header) a))] := by
  have h1 := ServeHTTP_path_eq env h request hp
  rw [hu] at h1
  dsimp only at h1
  rw [ha, recoverRemoteAddr_tcp] at h1
  dsimp only at h1
  rw [h1]
  rfl

/-- C2, amended: after a successful upgrade with a TCP socket peer, the delivered
remote address is decided by the first candidate of the parsed forwarded-address
header, whatever the parser; with the header parsed entry by entry, it is
decided by the first entry. When the first entry is a syntactically valid IPv4
or IPv6 address, the delivered address carries its IP with the port (and zone)
of the socket peer. When the first entry is not one, whatever entries follow it,
and when the header is absent or has no valid IPv4 or IPv6 entry at all, the
delivered address is the raw socket peer address. -/
theorem ServeHTTP_delivered_remoteAddr (upgrade : Request → Except Error Conn)
    (h : requestHandler) (request : Request) (conn : Conn) (a : TCPAddr)
    (hp : request.URLPath = h.path) (hu : upgrade request = .ok conn)
    (ha : conn.RemoteAddr = .tcp a) :
    (∀ parse : Header → List Address,
      delivered (h.ServeHTTP { Upgrade := upgrade, ParseXForwardedFor := parse }
          request).events =
        [newConnection conn (.tcp (AddressRecovery (parse request.Header) a))]) ∧
    (∀ e rest ip, forwardedEntries request.Header = e :: rest → entryIP e = some ip →
      delivered (h.ServeHTTP { Upgrade := upgrade, ParseXForwardedFor := ParseXForwardedFor }
          request).events =
        [newConnection conn (.tcp { IP := ip, Port := a.Port, Zone := a.Zone })]) ∧
    (∀ e rest, forwardedEntries request.Header = e :: rest → entryIP e = none →
      delivered (h.ServeHTTP { Upgrade := upgrade, ParseXForwardedFor := ParseXForwardedFor }
          request).events =
        [newConnection conn (.tcp a)]) ∧
    (forwardedEntries request.Header = [] →
      delivered (h.ServeHTTP { Upgrade := upgrade, ParseXForwardedFor := ParseXForwardedFor }
          request).events =
        [newConnection conn (.tcp a)]) ∧
    (firstValidIP request.Header = none →
      delivered (h.ServeHTTP { Upgrade := upgrade, ParseXForwardedFor := ParseXForwardedFor }
          request).events =
        [newConnection conn (.tcp a)]) := by
  have main : ∀ parse : Header → List Address,
      delivered (h.ServeHTTP { Upgrade := upgrade, ParseXForwardedFor := parse }
          request).events =
        [newConnection conn (.tcp (AddressRecovery (parse request.Header) a))] :=
    fun parse => ServeHTTP_delivered_of_tcp
      { Upgrade := upgrade, ParseXForwardedFor := parse } h request conn a hp hu ha
  have hip : ∀ e rest ip, forwardedEntries request.Header = e :: rest →
      entryIP e = some ip →
      AddressRecovery (ParseXForwardedFor request.Header) a =
        { IP := ip, Port := a.Port, Zone := a.Zone } := by
    intro e rest ip hsplit he
    unfold ParseXForwardedFor
    rw [hsplit, List.map_cons]
    rcases parseEntry_of_entryIP e ip he with h4 | h6
    · rw [h4]; rfl
    · rw [h6]; rfl
  have hother : ∀ e rest, forwardedEntries request.Header = e :: rest →
      entryIP e = none → AddressRecovery (ParseXForwardedFor request.Header) a = a := by
    intro e rest hsplit he
    unfold ParseXForwardedFor
    rw [hsplit, List.map_cons]
    obtain ⟨name, hd⟩ := parseEntry_of_entryIP_none e he
    rw [hd]
    rfl
  have hnil : forwardedEntries request.Header = [] →
      AddressRecovery (ParseXForwardedFor request.Header) a = a := by
    intro hsplit
    unfold ParseXForwardedFor
    rw [hsplit]
    rfl
  refine ⟨main, ?_, ?_, ?_, ?_⟩
  · intro e rest ip hsplit he
    rw [main, hip e rest ip hsplit he]
  · intro e rest hsplit he
    rw [main, hother e rest hsplit he]
  · intro hsplit
    rw [main, hnil hsplit]
  · intro hnone
    rw [main]
    cases hsplit : forwardedEntries request.Header with
    | nil => rw [hnil hsplit]
    | cons e rest =>
      have hall : ∀ x ∈ forwardedEntries request.Header, entryIP x = none :=
        List.findSome?_eq_none_iff.1 hnone
      have he : entryIP e = none := hall e (by rw [hsplit]; exact List.mem_cons_self _ _)
      rw [hother e rest hsplit he]

/-- Witness of C2, amended: the header "198.51.100.9, 10.0.0.1" with peer
10.0.0.1:9000 gives 198.51.100.9:9000; the header "proxy-1, 203.0.113.7", whose
first entry is not an IP address, with peer 10.0.0.1:9000 gives 10.0.0.1:9000;
no header with peer 203.0.113.5:54321 gives 203.0.113.5:54321. -/
theorem ServeHTTP_delivered_remoteAddr_witness :
    delivered (requestHandler.ServeHTTP
        { Upgrade := fun _ => .ok { id := 1
                                    RemoteAddr := .tcp { IP := [10, 0, 0, 1]
                                                         Port := 9000, Zone := "" } }
          ParseXForwardedFor := ParseXForwardedFor }
        { path := "/ws"
          ln := { listener := .system { id := 0, laddr := .nil, closed := false }
                  config := { Path := "/ws" }, addConn := { id := 7 } } }
        { URLPath := "/ws"
          Header := [("X-Forwarded-For", "198.51.100.9, 10.0.0.1")] }).events =
      [newConnection
        { id := 1, RemoteAddr := .tcp { IP := [10, 0, 0, 1], Port := 9000, Zone := "" } }
        (.tcp { IP := [198, 51, 100, 9], Port := 9000, Zone := "" })] ∧
    delivered (requestHandler.ServeHTTP
        { Upgrade := fun _ => .ok { id := 1
                                    RemoteAddr := .tcp { IP := [10, 0, 0, 1]
                                                         Port := 9000, Zone := "" } }
          ParseXForwardedFor := ParseXForwardedFor }
        { path := "/ws"
          ln := { listener := .system { id := 0, laddr := .nil, closed := false }
                  config := { Path := "/ws" }, addConn := { id := 7 } } }
        { URLPath := "/ws"
          Header := [("X-Forwarded-For", "proxy-1, 203.0.113.7")] }).events =
      [newConnection
        { id := 1, RemoteAddr := .tcp { IP := [10, 0, 0, 1], Port := 9000, Zone := "" } }
        (.tcp { IP := [10, 0, 0, 1], Port := 9000, Zone := "" })] ∧
    delivered (requestHandler.ServeHTTP
        { Upgrade := fun _ => .ok { id := 2
                                    RemoteAddr := .tcp { IP := [203, 0, 113, 5]
                                                         Port := 54321, Zone := "" } }
          ParseXForwardedFor := ParseXForwardedFor }
        { path := "/ws"
          ln := { listener := .system { id := 0, laddr := .nil, closed := false }
                  config := { Path := "/ws" }, addConn := { id := 7 } } }
        { URLPath := "/ws", Header := [] }).events =
      [newConnection
        { id := 2, RemoteAddr := .tcp { IP := [203, 0, 113, 5], Port := 54321, Zone := "" } }
        (.tcp { IP := [203, 0, 113, 5], Port := 54321, Zone := "" })] :=
  ⟨(ServeHTTP_delivered_remoteAddr
      (fun _ => .ok { id := 1
                      RemoteAddr := .tcp { IP := [10, 0, 0, 1], Port := 9000, Zone := "" } })
      { path := "/ws"
        ln := { listener := .system { id := 0, laddr := .nil, closed := false }
                config := { Path := "/ws" }, addConn := { id := 7 } } }
      { URLPath := "/ws", Header := [("X-Forwarded-For", "198.51.100.9, 10.0.0.1")] }
      { id := 1, RemoteAddr := .tcp { IP := [10, 0, 0, 1], Port := 9000, Zone := "" } }
      { IP := [10, 0, 0, 1], Port := 9000, Zone := "" }
      (by decide) rfl rfl).2.1 "198.51.100.9".toList [" 10.0.0.1".toList]
      [198, 51, 100, 9] (by decide) (by decide),
   (ServeHTTP_delivered_remoteAddr
      (fun _ => .ok { id := 1
                      RemoteAddr := .tcp { IP := [10, 0, 0, 1], Port := 9000, Zone := "" } })
      { path := "/ws"
        ln := { listener := .system { id := 0, laddr := .nil, closed := false }
                config := { Path := "/ws" }, addConn := { id := 7 } } }
      { URLPath := "/ws", Header := [("X-Forwarded-For", "proxy-1, 203.0.113.7")] }
      { id := 1, RemoteAddr := .tcp { IP := [10, 0, 0, 1], Port := 9000, Zone := "" } }
      { IP := [10, 0, 0, 1], Port := 9000, Zone := "" }
      (by decide) rfl rfl).2.2.1 "proxy-1".toList [" 203.0.113.7".toList]
      (by decide) (by decide),
   (ServeHTTP_delivered_remoteAddr
      (fun _ => .ok { id := 2
                      RemoteAddr := .tcp { IP := [203, 0, 113, 5], Port := 54321, Zone := "" } })
      { path := "/ws"
        ln := { listener := .system { id := 0, laddr := .nil, closed := false }
                config := { Path := "/ws" }, addConn := { id := 7 } } }
      { URLPath := "/ws", Header := [] }
      { id := 2, RemoteAddr := .tcp { IP := [203, 0, 113, 5], Port := 54321, Zone := "" } }
      { IP := [203, 0, 113, 5], Port := 54321, Zone := "" }
      (by decide) rfl rfl).2.2.2.1 (by decide)⟩

/-! ## Creating the listener -/

/-- What `listenTCP` does on an address that has an IP, by the result of the
bind. -/
theorem listenTCP_of_IP (sys : SysEnv) (address : Address) (port : Nat)
    (tlsConfig : Option TLSConfig) (ip : List Nat) (hip : address.IP = some ip) :
    listenTCP sys address port tlsConfig =
      match sys.ListenSystem { IP := ip, Port := port, Zone := "" } with
      | .error err =>
        { outcome := .returned (.error (.newError
            [.str "failed to listen TCP on", .address address, .str ":", .port port] err false))
          events := [.ListenSystem { IP := ip, Port := port, Zone := "" }]
          spawned := [] }
      | .ok listener =>
        { outcome := .returned (.ok
            (match tlsConfig with
              | some config => .tls (.system listener) config
              | none => .system listener))
          events := [.ListenSystem { IP := ip, Port := port, Zone := "" }]
          spawned := [] } := by
  unfold listenTCP
  rw [hip]
  dsimp only
  cases sys.ListenSystem { IP := ip, Port := port, Zone := "" } with
  | error err => rfl
  | ok listener => cases tlsConfig <;> rfl

/-- What `ListenWS` does on well-formed arguments (the context carries this
transport's settings, the address has an IP), by the result of the bind. -/
theorem ListenWS_of_settings (sys : SysEnv) (ctx : Context) (address : Address) (port : Nat)
    (addConn : ConnHandler) (c : Config) (ip : List Nat)
    (hs : ctx.streamSettings = some { ProtocolSettings := .wsConfig c })
    (hip : address.IP = some ip) :
    ListenWS sys ctx address port addConn =
      match sys.ListenSystem { IP := ip, Port := port, Zone := "" } with
      | .error err =>
        { outcome := .returned (none, some (.newError
            [.str "failed to listen TCP on", .address address, .str ":", .port port] err false))
          events := [.ListenSystem { IP := ip, Port := port, Zone := "" }]
          spawned := [] }
      | .ok listener =>
        { outcome := .returned
            (some { listener :=
                      (match ListenWS.tlsConfig ctx with
                        | some config => .tls (.system listener) config
                        | none => .system listener)
                    config := c, addConn := addConn }, none)
          events := [.ListenSystem { IP := ip, Port := port, Zone := "" }]
          spawned := [.serve
            { listener :=
                (match ListenWS.tlsConfig ctx with
                  | some config => .tls (.system listener) config
                  | none => .system listener)
              config := c, addConn := addConn } ctx] } := by
  unfold ListenWS StreamSettingsFromContext
  rw [hs]
  dsimp only
  rw [listenTCP_of_IP sys address port _ ip hip]
  cases sys.ListenSystem { IP := ip, Port := port, Zone := "" } with
  | error err => rfl
  | ok listener => rfl

/-- A call of `ServeHTTP` leaves the `Listener` as it was. -/
theorem ServeHTTP_ln (env : Env) (h : requestHandler) (request : Request) :
    (h.ServeHTTP env request).ln = h.ln := by
  unfold requestHandler.ServeHTTP
  split
  · rfl
  · split
    · rfl
    · dsimp only
      split <;> rfl

/-- A run of `http.Serve` ends with the error of the failed accept and leaves
the `Listener` as it was. -/
theorem httpServe_err_ln (env : Env) (path : String) (final : Error)
    (requests : List Request) (ln : Listener) (events : List Event) :
    (httpServe env path final requests ln events).err = final ∧
      (httpServe env path final requests ln events).ln = ln := by
  induction requests generalizing ln events with
  | nil => exact ⟨rfl, rfl⟩
  | cons request rest ih =>
    unfold httpServe
    dsimp only
    rw [ServeHTTP_ln]
    exact ih ln _

/-- A call of `ListenWS` that returns an error had well-formed arguments (the
context carries this transport's settings, the address has an IP) and its bind
failed. -/
theorem ListenWS_returned_error (sys : SysEnv) (ctx : Context) (address : Address)
    (port : Nat) (addConn : ConnHandler) (l : Option Listener) (err : Error)
    (ho : (ListenWS sys ctx address port addConn).outcome = .returned (l, some err)) :
    ∃ c ip e, ctx.streamSettings = some { ProtocolSettings := .wsConfig c } ∧
      address.IP = some ip ∧
      sys.ListenSystem { IP := ip, Port := port, Zone := "" } = .error e := by
  cases hs : ctx.streamSettings with
  | none =>
    unfold ListenWS StreamSettingsFromContext at ho
    rw [hs] at ho
    simp at ho
  | some networkSettings =>
    obtain ⟨ps⟩ := networkSettings
    cases ps with
    | other name =>
      unfold ListenWS StreamSettingsFromContext at ho
      rw [hs] at ho
      simp at ho
    | wsConfig c =>
      cases hip : address.IP with
      | none =>
        unfold ListenWS StreamSettingsFromContext listenTCP at ho
        rw [hs, hip] at ho
        simp at ho
      | some ip =>
        rw [ListenWS_of_settings sys ctx address port addConn c ip hs hip] at ho
        cases hb : sys.ListenSystem { IP := ip, Port := port, Zone := "" } with
        | error e => exact ⟨c, ip, e, rfl, rfl, hb⟩
        | ok listener =>
          rw [hb] at ho
          simp at ho

/-- C7: `ListenWS` returns an error exactly when it binds the system socket (the
context carries this transport's settings and the address has an IP) and the
bind fails. When the bind fails, it returns a nil listener with the error built
on the bind error, after the one bind attempt, and starts no goroutine. When the
bind succeeds, it returns, with a nil error, the `Listener` whose `config` is the
protocol settings of the context, whose `addConn` is the callback passed in and
whose `listener` is what the bind gave (wrapped for TLS when configured), and it
starts exactly one goroutine, which runs `serve` on that `Listener` and writes
the error `serve` ends with to the log at warning level, handing it to nobody. -/
theorem ListenWS_error_iff_bind_fails (sys : SysEnv) (ctx : Context) (address : Address)
    (port : Nat) (addConn : ConnHandler) :
    ((∃ l err, (ListenWS sys ctx address port addConn).outcome = .returned (l, some err)) ↔
      ∃ c ip err, ctx.streamSettings = some { ProtocolSettings := .wsConfig c } ∧
        address.IP = some ip ∧
        sys.ListenSystem { IP := ip, Port := port, Zone := "" } = .error err) ∧
    (∀ c ip err, ctx.streamSettings = some { ProtocolSettings := .wsConfig c } →
      address.IP = some ip →
      sys.ListenSystem { IP := ip, Port := port, Zone := "" } = .error err →
      ListenWS sys ctx address port addConn =
        { outcome := .returned (none, some (.newError
            [.str "failed to listen TCP on", .address address, .str ":", .port port]
            err false))
          events := [.ListenSystem { IP := ip, Port := port, Zone := "" }]
          spawned := [] }) ∧
    (∀ c ip listener, ctx.streamSettings = some { ProtocolSettings := .wsConfig c } →
      address.IP = some ip →
      sys.ListenSystem { IP := ip, Port := port, Zone := "" } = .ok listener →
      ListenWS sys ctx address port addConn =
          { outcome := .returned
              (some { listener :=
                        (match ListenWS.tlsConfig ctx with
                          | some config => .tls (.system listener) config
                          | none => .system listener)
                      config := c, addConn := addConn }, none)
            events := [.ListenSystem { IP := ip, Port := port, Zone := "" }]
            spawned := [.serve
              { listener :=
                  (match ListenWS.tlsConfig ctx with
                    | some config => .tls (.system listener) config
                    | none => .system listener)
                config := c, addConn := addConn } ctx] } ∧
        ∀ env requests final,
          Task.run env requests final (.serve
              { listener :=
                  (match ListenWS.tlsConfig ctx with
                    | some config => .tls (.system listener) config
                    | none => .system listener)
                config := c, addConn := addConn } ctx) =
            (Listener.serve env
                { listener :=
                    (match ListenWS.tlsConfig ctx with
                      | some config => .tls (.system listener) config
                      | none => .system listener)
                  config := c, addConn := addConn } requests final).events ++
              [.WriteToLog
                (.newError [.str "failed to serve http for WebSocket"] final true)]) := by
  refine ⟨⟨?_, ?_⟩, ?_, ?_⟩
  · rintro ⟨l, err, ho⟩
    exact ListenWS_returned_error sys ctx address port addConn l err ho
  · rintro ⟨c, ip, err, hs, hip, hb⟩
    rw [ListenWS_of_settings sys ctx address port addConn c ip hs hip, hb]
    exact ⟨_, _, rfl⟩
  · intro c ip err hs hip hb
    rw [ListenWS_of_settings sys ctx address port addConn c ip hs hip, hb]
  · intro c ip listener hs hip hb
    refine ⟨?_, fun env requests final => ?_⟩
    · rw [ListenWS_of_settings sys ctx address port addConn c ip hs hip, hb]
    · unfold Task.run
      dsimp only
      rw [Listener.serve, (httpServe_err_ln _ _ _ _ _ _).1]

/-- Witness of C7: a bind that fails gives the error and no goroutine; a bind
that succeeds gives the `Listener` and the one goroutine serving it. -/
theorem ListenWS_error_iff_bind_fails_witness :
    ListenWS { ListenSystem := fun _ => .error (.external "address already in use") }
        { streamSettings := some { ProtocolSettings := .wsConfig { Path := "/ws" } }
          tlsConfig := none, sessionID := 0 }
        (.ipv4 [127, 0, 0, 1]) 8080 { id := 7 } =
      { outcome := .returned (none, some (.newError
          [.str "failed to listen TCP on", .address (.ipv4 [127, 0, 0, 1]), .str ":",
            .port 8080]
          (.external "address already in use") false))
        events := [.ListenSystem { IP := [127, 0, 0, 1], Port := 8080, Zone := "" }]
        spawned := [] } ∧
    ListenWS { ListenSystem := fun a => .ok { id := 3, laddr := .tcp a, closed := false } }
        { streamSettings := some { ProtocolSettings := .wsConfig { Path := "/ws" } }
          tlsConfig := none, sessionID := 0 }
        (.ipv4 [127, 0, 0, 1]) 8080 { id := 7 } =
      { outcome := .returned
          (some { listener := .system
                    { id := 3
                      laddr := .tcp { IP := [127, 0, 0, 1], Port := 8080, Zone := "" }
                      closed := false }
                  config := { Path := "/ws" }, addConn := { id := 7 } }, none)
        events := [.ListenSystem { IP := [127, 0, 0, 1], Port := 8080, Zone := "" }]
        spawned := [.serve
          { listener := .system
              { id := 3
                laddr := .tcp { IP := [127, 0, 0, 1], Port := 8080, Zone := "" }
                closed := false }
            config := { Path := "/ws" }, addConn := { id := 7 } }
          { streamSettings := some { ProtocolSettings := .wsConfig { Path := "/ws" } }
            tlsConfig := none, sessionID := 0 }] } :=
  ⟨(ListenWS_error_iff_bind_fails
      { ListenSystem := fun _ => .error (.external "address already in use") }
      { streamSettings := some { ProtocolSettings := .wsConfig { Path := "/ws" } }
        tlsConfig := none, sessionID := 0 }
      (.ipv4 [127, 0, 0, 1]) 8080 { id := 7 }).2.1
      { Path := "/ws" } [127, 0, 0, 1] (.external "address already in use") rfl rfl rfl,
   ((ListenWS_error_iff_bind_fails
      { ListenSystem := fun a => .ok { id := 3, laddr := .tcp a, closed := false } }
      { streamSettings := some { ProtocolSettings := .wsConfig { Path := "/ws" } }
        tlsConfig := none, sessionID := 0 }
      (.ipv4 [127, 0, 0, 1]) 8080 { id := 7 }).2.2
      { Path := "/ws" } [127, 0, 0, 1]
      { id := 3, laddr := .tcp { IP := [127, 0, 0, 1], Port := 8080, Zone := "" }
        closed := false } rfl rfl rfl).1⟩

/-- C8: after a successful bind, `listenTCP` returns the TLS listener built from
the raw system listener and the TLS configuration when one is supplied, and the
raw system listener itself when none is; it returns a TLS listener exactly when
a configuration is supplied. The configuration `ListenWS` hands down is present
exactly when the context carries a TLS config object. -/
theorem listenTCP_tls_iff (sys : SysEnv) (address : Address) (port : Nat)
    (tlsConfig : Option TLSConfig) (ip : List Nat) (listener : SysListener)
    (hip : address.IP = some ip)
    (hb : sys.ListenSystem { IP := ip, Port := port, Zone := "" } = .ok listener) :
    (listenTCP sys address port tlsConfig).outcome =
        .returned (.ok
          (match tlsConfig with
            | some config => .tls (.system listener) config
            | none => .system listener)) ∧
      ((∃ inner config, (listenTCP sys address port tlsConfig).outcome =
          .returned (.ok (.tls inner config))) ↔ tlsConfig ≠ none) ∧
      (∀ ctx : Context, ListenWS.tlsConfig ctx ≠ none ↔ ConfigFromContext ctx ≠ none) ∧
      (∀ (ctx : Context) (addConn : ConnHandler) (c : Config),
        ctx.streamSettings = some { ProtocolSettings := .wsConfig c } →
        (ListenWS sys ctx address port addConn).outcome =
          .returned
            (some { listener :=
                      (match ConfigFromContext ctx with
                        | some config => .tls (.system listener) { id := config.id }
                        | none => .system listener)
                    config := c, addConn := addConn }, none)) := by
  have h1 := listenTCP_of_IP sys address port tlsConfig ip hip
  rw [hb] at h1
  dsimp only at h1
  refine ⟨by rw [h1], ?_, ?_, ?_⟩
  · rw [h1]
    cases tlsConfig with
    | none => simp
    | some config => simp
  · intro ctx
    unfold ListenWS.tlsConfig
    cases ConfigFromContext ctx with
    | none => simp
    | some config => simp [V2TLSConfig.GetTLSConfig]
  · intro ctx addConn c hs
    rw [ListenWS_of_settings sys ctx address port addConn c ip hs hip, hb]
    dsimp only
    unfold ListenWS.tlsConfig
    cases ConfigFromContext ctx with
    | none => rfl
    | some config => rfl

/-- Witness of C8: with a TLS configuration the listener is wrapped. -/
theorem listenTCP_tls_iff_witness :
    (listenTCP { ListenSystem := fun a => .ok { id := 3, laddr := .tcp a, closed := false } }
        (.ipv4 [127, 0, 0, 1]) 8443 (some { id := 5 })).outcome =
      .returned (.ok (.tls
        (.system { id := 3
                   laddr := .tcp { IP := [127, 0, 0, 1], Port := 8443, Zone := "" }
                   closed := false })
        { id := 5 })) :=
  (listenTCP_tls_iff
    { ListenSystem := fun a => .ok { id := 3, laddr := .tcp a, closed := false } }
    (.ipv4 [127, 0, 0, 1]) 8443 (some { id := 5 }) [127, 0, 0, 1]
    { id := 3, laddr := .tcp { IP := [127, 0, 0, 1], Port := 8443, Zone := "" }
      closed := false }
    rfl rfl).1

/-! ## The bound address -/

/-- Closing a `net.Listener` changes neither its address nor the system
listener under it. -/
theorem NetListener_Close_frame (l : NetListener) :
    (l.Close).1.Addr = l.Addr ∧ (l.Close).1.sysId = l.sysId := by
  induction l with
  | system sl =>
    unfold NetListener.Close
    split <;> exact ⟨rfl, rfl⟩
  | tls inner config ih => exact ih

/-- One operation changes neither the address, nor the system listener, nor the
config, nor the callback of a `Listener`. -/
theorem Op_apply_frame (ln : Listener) (op : Op) :
    (op.apply ln).Addr = ln.Addr ∧ (op.apply ln).listener.sysId = ln.listener.sysId ∧
      (op.apply ln).config = ln.config ∧ (op.apply ln).addConn = ln.addConn := by
  cases op with
  | Close =>
    exact ⟨(NetListener_Close_frame ln.listener).1, (NetListener_Close_frame ln.listener).2,
      rfl, rfl⟩
  | ServeHTTP env request =>
    have h : Op.apply ln (.ServeHTTP env request) = ln := ServeHTTP_ln env _ request
    rw [h]
    exact ⟨rfl, rfl, rfl, rfl⟩
  | serve env requests final =>
    have h : Op.apply ln (.serve env requests final) = ln :=
      (httpServe_err_ln env _ final requests ln []).2
    rw [h]
    exact ⟨rfl, rfl, rfl, rfl⟩

/-- C9: `Addr` returns the address of the underlying listener, and after any
sequence of `Close`, `serve` and `ServeHTTP` operations the `Listener` still
holds the same system listener, config and callback, and `Addr` returns the same
address; in particular `Addr` after `Close` is `Addr` before `Close`, and request
handling and serving leave the `Listener` exactly as it was. -/
theorem Listener_Addr_stable (ln : Listener) (ops : List Op) :
    ln.Addr = ln.listener.Addr ∧
      (applyOps ln ops).Addr = ln.Addr ∧
      (applyOps ln ops).listener.sysId = ln.listener.sysId ∧
      (applyOps ln ops).config = ln.config ∧
      (applyOps ln ops).addConn = ln.addConn ∧
      ((ln.Close).1).Addr = ln.Addr ∧
      (∀ env request, Op.apply ln (.ServeHTTP env request) = ln) ∧
      (∀ env requests final, Op.apply ln (.serve env requests final) = ln) := by
  have key : ∀ (ops : List Op) (ln : Listener),
      (applyOps ln ops).Addr = ln.Addr ∧
        (applyOps ln ops).listener.sysId = ln.listener.sysId ∧
        (applyOps ln ops).config = ln.config ∧ (applyOps ln ops).addConn = ln.addConn := by
    intro ops
    induction ops with
    | nil => intro ln; exact ⟨rfl, rfl, rfl, rfl⟩
    | cons op rest ih =>
      intro ln
      have h1 := ih (op.apply ln)
      have h2 := Op_apply_frame ln op
      have hstep : applyOps ln (op :: rest) = applyOps (op.apply ln) rest := rfl
      rw [hstep]
      exact ⟨h1.1.trans h2.1, h1.2.1.trans h2.2.1, h1.2.2.1.trans h2.2.2.1,
        h1.2.2.2.trans h2.2.2.2⟩
  obtain ⟨k1, k2, k3, k4⟩ := key ops ln
  exact ⟨rfl, k1, k2, k3, k4, (NetListener_Close_frame ln.listener).1,
    fun env request => ServeHTTP_ln env _ request,
    fun env requests final => (httpServe_err_ln env _ final requests ln []).2⟩

end Websocket
